/-
  VulnGuard verification development.

  Part 1 embeds the ML classification service. Its Python implementation
  (ml-service/app.py) is not present in the repository snapshot; only its
  README, integration tests and HTTP callers are. Those definitions are
  therefore modelled from the specification (sections 3-8 of spec.md) and
  are marked as such in their doc comments.

  Part 2 embeds the backend scan controller from
  src/backend/controllers/scanController.js, which is present in full.
-/
import Mathlib

/-! ## Part 1: ML classification service (modelled from the spec) -/

/-- Modelled from the spec: pattern categories of the Pattern Library
(missing source: ml-service/app.py). Categories are db_error, sql_syntax
and normal. -/
inductive PatternCategory where
  | db_error
  | sql_syntax
  | normal
deriving DecidableEq

/-- Modelled from the spec: the four classification labels
HIT, MISS, LIKELY, ERROR (missing source: ml-service/app.py). -/
inductive Classification where
  | HIT
  | MISS
  | LIKELY
  | ERROR
deriving DecidableEq

/-- Lower-cased character list of a string, for case-insensitive matching. -/
def lowerChars (s : String) : List Char :=
  s.data.map Char.toLower

/-- Containment of one character list in another as a contiguous sublist. -/
def containsSub (pat : List Char) (s : List Char) : Bool :=
  match s with
  | [] => pat.isEmpty
  | c :: rest => pat.isPrefixOf (c :: rest) || containsSub pat rest

/-- Case-insensitive substring match of a pattern against a body text. -/
def containsPat (body pat : String) : Bool :=
  containsSub (lowerChars pat) (lowerChars body)

/-- Modelled from the spec: vendor-specific database error signatures of the
Pattern Library (missing source: ml-service/app.py). -/
def dbErrorPatterns : List String :=
  ["mysql", "ora-", "postgresql", "sqlite", "microsoft ole db"]

/-- Modelled from the spec: generic SQL-syntax error phrases of the
Pattern Library (missing source: ml-service/app.py). -/
def sqlSyntaxPatterns : List String :=
  ["sql syntax", "syntax error", "unclosed quotation mark",
   "quoted string not properly terminated"]

/-- Modelled from the spec: normal-response markers of the Pattern Library
(missing source: ml-service/app.py). -/
def normalPatterns : List String :=
  ["thank you", "search results", "login successful"]

/-- Modelled from the spec: a raw, loosely-typed response payload as it
arrives at the HTTP boundary; required fields may be missing
(missing source: ml-service/app.py). -/
structure RawRecord where
  url : Option String
  method : Option String
  status_code : Option Nat
  headers : List (String × String)
  body : Option String
  request_payload : Option String
deriving DecidableEq

/-- Modelled from the spec: a validated ResponseRecord with all required
fields present; request_payload stays optional
(missing source: ml-service/app.py). -/
structure ResponseRecord where
  url : String
  method : String
  status_code : Nat
  headers : List (String × String)
  body : String
  request_payload : Option String
deriving DecidableEq

/-- Message produced when a required ResponseRecord field is missing. -/
def malformedMsg : String := "InputError: missing required ResponseRecord field"

/-- Modelled from the spec: boundary validation of a raw record into a
ResponseRecord; any missing required field is an InputError
(missing source: ml-service/app.py). -/
def validate (raw : RawRecord) : Except String ResponseRecord :=
  match raw.url, raw.method, raw.status_code, raw.body with
  | some u, some m, some sc, some b =>
      Except.ok ⟨u, m, sc, raw.headers, b, raw.request_payload⟩
  | _, _, _, _ => Except.error malformedMsg

/-- Modelled from the spec: a PatternHit, derived per record
(missing source: ml-service/app.py). -/
structure PatternHit where
  pattern : String
  category : PatternCategory
  matched : Bool
deriving DecidableEq

/-- Modelled from the spec: derive the pattern hits of a record by
case-insensitive substring matches of the whole Pattern Library against
the response body (missing source: ml-service/app.py). -/
def mkHits (r : ResponseRecord) : List PatternHit :=
  dbErrorPatterns.map
    (fun p => ⟨p, PatternCategory.db_error, containsPat r.body p⟩) ++
  sqlSyntaxPatterns.map
    (fun p => ⟨p, PatternCategory.sql_syntax, containsPat r.body p⟩) ++
  normalPatterns.map
    (fun p => ⟨p, PatternCategory.normal, containsPat r.body p⟩)

/-- Count of matched db_error hits. -/
def dbErrorCount (hits : List PatternHit) : Nat :=
  hits.countP (fun h => h.matched && h.category == PatternCategory.db_error)

/-- Count of matched sql_syntax hits. -/
def sqlSyntaxCount (hits : List PatternHit) : Nat :=
  hits.countP (fun h => h.matched && h.category == PatternCategory.sql_syntax)

/-- Count of matched normal-pattern hits. -/
def normalCount (hits : List PatternHit) : Nat :=
  hits.countP (fun h => h.matched && h.category == PatternCategory.normal)

/-- Count of matched abnormal (db_error or sql_syntax) hits. -/
def abnormalCount (hits : List PatternHit) : Nat :=
  dbErrorCount hits + sqlSyntaxCount hits

/-- Modelled from the spec: the heuristic normality score in [-1,1]; each
abnormal match decreases normality, each normal match increases it, and a
tie (equal counts, or no matches at all) stays on the normal side
(missing source: ml-service/app.py). -/
def normalityScore (hits : List PatternHit) : ℚ :=
  let a := abnormalCount hits
  let n := normalCount hits
  if a + n = 0 then 0
  else ((n : ℚ) - (a : ℚ)) / ((n : ℚ) + (a : ℚ))

/-- Modelled from the spec: the suggested vulnerability type defaults to a
generic injection label when any abnormal match exists
(missing source: ml-service/app.py). -/
def suggestedType (hits : List PatternHit) : String :=
  if 0 < abnormalCount hits then "SQL Injection" else "None"

/-- Modelled from the spec: the heuristic scorer, pairing the normality
score with the suggested type (missing source: ml-service/app.py). -/
def score (hits : List PatternHit) : ℚ × String :=
  (normalityScore hits, suggestedType hits)

/-- Modelled from the spec: configurable decision thresholds of the
confidence fusion (missing source: ml-service/app.py). -/
structure FusionConfig where
  high : ℚ
  low : ℚ
deriving DecidableEq

/-- Modelled from the spec: the default thresholds 0.75 and 0.35
(missing source: ml-service/app.py). -/
def defaultFusionConfig : FusionConfig := ⟨3/4, 7/20⟩

/-- Modelled from the spec: the final confidence is the classifier
probability of the vulnerable class, nudged when classifier and heuristic
strongly disagree: a low-margin vulnerable probability against a strongly
normal heuristic is pulled down into the LIKELY band, and symmetrically a
near-MISS probability against a strongly abnormal heuristic is pulled up
into the LIKELY band (missing source: ml-service/app.py; the spec leaves
the exact nudging formula open). -/
def finalConfidence (cfg : FusionConfig) (p h : ℚ) : ℚ :=
  if cfg.high ≤ p ∧ p < cfg.high + 1/10 ∧ 1/2 ≤ h then (cfg.low + cfg.high) / 2
  else if p ≤ cfg.low ∧ h ≤ -(1/2) then (cfg.low + cfg.high) / 2
  else p

/-- Modelled from the spec: threshold decision of the confidence fusion:
final confidence at least the high threshold with a non-negative heuristic
gives HIT, final confidence at most the low threshold gives MISS, and
every other case gives LIKELY (missing source: ml-service/app.py). -/
def fuseLabel (cfg : FusionConfig) (conf h : ℚ) : Classification :=
  if cfg.high ≤ conf ∧ 0 ≤ h then Classification.HIT
  else if conf ≤ cfg.low then Classification.MISS
  else Classification.LIKELY

/-- Modelled from the spec: a human-auditable explanation enumerating which
pattern categories fired plus the raw model confidence; for ERROR results
the note carries the error message (missing source: ml-service/app.py). -/
structure Explanation where
  firedCategories : List PatternCategory
  modelConfidence : ℚ
  note : String
deriving DecidableEq

/-- Modelled from the spec: build the explanation from the pattern hits and
the raw model probability (missing source: ml-service/app.py). -/
def mkExplanation (hits : List PatternHit) (p : ℚ) : Explanation :=
  { firedCategories :=
      (if 0 < dbErrorCount hits then [PatternCategory.db_error] else []) ++
      (if 0 < sqlSyntaxCount hits then [PatternCategory.sql_syntax] else []) ++
      (if 0 < normalCount hits then [PatternCategory.normal] else []),
    modelConfidence := p,
    note := "pattern categories and model confidence enumerated" }

/-- Modelled from the spec: a TrainedModel snapshot, an immutable pairing of
vectorizer and classifier state; predict_proba gives the calibrated
probability of the vulnerable class (missing source: ml-service/app.py). -/
structure Snapshot where
  predict_proba : ResponseRecord → ℚ
  vectorizer_features : Nat
  model_features : Nat

/-- Modelled from the spec: a ClassificationResult
(missing source: ml-service/app.py). -/
structure ClassificationResult where
  url : String
  classification : Classification
  confidence : ℚ
  vulnerability_type : String
  explanation : Explanation
deriving DecidableEq

/-- Modelled from the spec: classify a validated record against a snapshot:
pattern hits, heuristic score and classifier probability are fused into a
label, confidence and explanation; synchronous and pure relative to the
snapshot (missing source: ml-service/app.py). -/
def classify (cfg : FusionConfig) (snap : Snapshot) (r : ResponseRecord) :
    ClassificationResult :=
  let hits := mkHits r
  let h := normalityScore hits
  let p := snap.predict_proba r
  let conf := finalConfidence cfg p h
  { url := r.url,
    classification := fuseLabel cfg conf h,
    confidence := conf,
    vulnerability_type := suggestedType hits,
    explanation := mkExplanation hits p }

/-- Modelled from the spec: single-record mode; a malformed record fails the
whole request (missing source: ml-service/app.py). -/
def classifySingle (cfg : FusionConfig) (snap : Snapshot) (raw : RawRecord) :
    Except String ClassificationResult :=
  (validate raw).map (classify cfg snap)

/-- Modelled from the spec: per-record behaviour in batch mode; a malformed
record yields classification ERROR with a populated explanation instead of
aborting the batch (missing source: ml-service/app.py). -/
def classifyOne (cfg : FusionConfig) (snap : Snapshot) (raw : RawRecord) :
    ClassificationResult :=
  match validate raw with
  | Except.ok r => classify cfg snap r
  | Except.error e =>
      { url := raw.url.getD "",
        classification := Classification.ERROR,
        confidence := 0,
        vulnerability_type := "None",
        explanation := ⟨[], 0, e⟩ }

/-- Modelled from the spec: batch summary with per-label counts
(missing source: ml-service/app.py). -/
structure BatchSummary where
  total : Nat
  HIT : Nat
  MISS : Nat
  LIKELY : Nat
  ERROR : Nat
deriving DecidableEq

/-- Count of results carrying a given label. -/
def countLabel (c : Classification) (rs : List ClassificationResult) : Nat :=
  rs.countP (fun x => x.classification == c)

/-- Modelled from the spec: batch classification, producing one result per
input record in input order together with the summary counts
(missing source: ml-service/app.py). -/
def classify_batch (cfg : FusionConfig) (snap : Snapshot)
    (raws : List RawRecord) : List ClassificationResult × BatchSummary :=
  let results := raws.map (classifyOne cfg snap)
  (results,
   { total := results.length,
     HIT := countLabel Classification.HIT results,
     MISS := countLabel Classification.MISS results,
     LIKELY := countLabel Classification.LIKELY results,
     ERROR := countLabel Classification.ERROR results })

/-- Modelled from the spec: a labeled training example
(missing source: ml-service/train_model.py). -/
structure LabeledExample where
  sample : ResponseRecord
  vulnerable : Bool
deriving DecidableEq

/-- Modelled from the spec: deterministic training over a labeled corpus; an
empty corpus is a TrainingFailure, otherwise a new snapshot is built
(missing source: ml-service/train_model.py). -/
def train (corpus : List LabeledExample) : Except String Snapshot :=
  if corpus.isEmpty then Except.error "TrainingFailure: empty corpus"
  else
    Except.ok
      { predict_proba := fun _ =>
          ((corpus.countP (fun ex => ex.vulnerable) : ℚ)) / (corpus.length : ℚ),
        vectorizer_features := 1000,
        model_features := 15 }

/-- Modelled from the spec: the Model Lifecycle Manager state: the active
snapshot reference (absent before any successful load or training) and the
last reported training failure (missing source: ml-service/app.py). -/
structure MLState where
  active : Option Snapshot
  lastFailure : Option String

/-- Modelled from the spec: apply the outcome of a retraining run; on
success the new snapshot becomes active, on failure the previous snapshot
stays active and the failure is recorded, never silently dropped
(missing source: ml-service/app.py). -/
def applyRetrain (st : MLState) (corpus : List LabeledExample) : MLState :=
  match train corpus with
  | Except.ok snap => { active := some snap, lastFailure := none }
  | Except.error e => { st with lastFailure := some e }

/-- Modelled from the spec: the synchronous acknowledgement of POST /retrain;
the caller gets an immediate message and the state it observes is unchanged
(missing source: ml-service/app.py). -/
def retrainAck (st : MLState) : String × MLState :=
  ("Model retraining started in background", st)

/-- Modelled from the spec: the GET /health payload
(missing source: ml-service/app.py). -/
structure HealthResponse where
  status : String
  model_loaded : Bool
deriving DecidableEq

/-- Modelled from the spec: GET /health reports status and whether a model
snapshot is loaded (missing source: ml-service/app.py). -/
def health (st : MLState) : HealthResponse :=
  { status := if st.active.isSome then "healthy" else "unhealthy",
    model_loaded := st.active.isSome }

/-- Modelled from the spec: the GET /model/info payload
(missing source: ml-service/app.py). -/
structure ModelInfo where
  model_type : String
  vectorizer_features : Nat
  model_features : Nat
deriving DecidableEq

/-- Modelled from the spec: GET /model/info fails with ModelNotLoaded before
a snapshot exists (missing source: ml-service/app.py). -/
def model_info (st : MLState) : Except String ModelInfo :=
  match st.active with
  | none => Except.error "ModelNotLoaded"
  | some s =>
      Except.ok ⟨"RandomForestClassifier", s.vectorizer_features, s.model_features⟩

/-- Modelled from the spec: POST /classify fails with ModelNotLoaded before a
snapshot exists, otherwise classifies against the active snapshot
(missing source: ml-service/app.py). -/
def serviceClassify (st : MLState) (raw : RawRecord) :
    Except String ClassificationResult :=
  match st.active with
  | none => Except.error "ModelNotLoaded"
  | some snap => classifySingle defaultFusionConfig snap raw

/-- Scenario A input of the integration test: a MySQL SQL-syntax error body
with status 500 and an injection payload. -/
def sqlInjectionRecord : ResponseRecord :=
  { url := "http://test.com/search",
    method := "GET",
    status_code := 500,
    headers := [("content-type", "text/html")],
    body := "You have an error in your SQL syntax; check the manual that corresponds to your MySQL server version",
    request_payload := some "id=1 OR 1=1" }

/-- A concrete snapshot used to instantiate theorems with hypotheses. -/
def demoSnapshot : Snapshot :=
  { predict_proba := fun _ => 1/2,
    vectorizer_features := 1000,
    model_features := 15 }

/-- A well-formed raw record used to instantiate theorems. -/
def demoRaw : RawRecord :=
  { url := some "http://example.com/home",
    method := some "GET",
    status_code := some 200,
    headers := [("content-type", "text/html")],
    body := some "hello",
    request_payload := none }

/-- A raw record with a missing body, Scenario C of the integration tests. -/
def badRaw : RawRecord :=
  { url := some "http://example.com/bad",
    method := some "GET",
    status_code := some 500,
    headers := [("content-type", "text/html")],
    body := none,
    request_payload := none }

/-- The validated form of demoRaw. -/
def demoRecord : ResponseRecord :=
  { url := "http://example.com/home",
    method := "GET",
    status_code := 200,
    headers := [("content-type", "text/html")],
    body := "hello",
    request_payload := none }

/-- A batch of three raw records whose middle record misses its body,
Scenario C of the integration tests. -/
def demoBatch : List RawRecord := [demoRaw, badRaw, demoRaw]

/-- A single matched db_error hit, to instantiate the heuristic theorems. -/
def demoHits : List PatternHit := [⟨"mysql", PatternCategory.db_error, true⟩]

/-- The lifecycle state before any snapshot exists. -/
def emptyMLState : MLState := ⟨none, none⟩

/-! ## Part 2: backend scan controller
(embedded from src/backend/controllers/scanController.js) -/

/-- Scan status values used by scanController.js: the six phases of
phaseOrder plus the failed and cancelled statuses. -/
inductive ScanStatus where
  | pending
  | crawling
  | analyzing
  | testing
  | classifying
  | completed
  | failed
  | cancelled
deriving DecidableEq

/-- The phaseOrder array of simulateScanProgress
(scanController.js line 100). -/
def phaseOrder : List ScanStatus :=
  [ScanStatus.pending, ScanStatus.crawling, ScanStatus.analyzing,
   ScanStatus.testing, ScanStatus.classifying, ScanStatus.completed]

/-- The mutable state relevant to one scan during the background progress
simulation: the scan status stored in the scans array, the
currentPhaseIndex closure variable of simulateScanProgress, and whether
the setInterval timer is still active (clearInterval not yet called). -/
structure SimState where
  status : ScanStatus
  currentPhaseIndex : Nat
  intervalActive : Bool
deriving DecidableEq

/-- The state of a scan right after startScan: status pending, simulation
started at phase index 0 (scanController.js lines 64-88). -/
def startedScan : SimState := ⟨ScanStatus.pending, 0, true⟩

/-- An observable step on a single scan: a tick of the setInterval callback
of simulateScanProgress, or a successful cancelScan request. -/
inductive ScanEvent where
  | tick
  | cancel
deriving DecidableEq

/-- One step of the scan state, embedded from scanController.js.
A cancel (cancelScan, lines 180-197, scan found) sets status to cancelled;
the closure variable currentPhaseIndex and the timer are untouched.
A tick (the setInterval callback of simulateScanProgress, lines 105-149,
scan still present) advances currentPhaseIndex and overwrites status with
phaseOrder at the new index while below the last index, and otherwise sets
status to completed and clears the interval. The callback reads only
whether the scan exists, never whether it was cancelled. -/
def scanStep (s : SimState) (e : ScanEvent) : SimState :=
  match e with
  | ScanEvent.cancel => { s with status := ScanStatus.cancelled }
  | ScanEvent.tick =>
      if s.intervalActive then
        if s.currentPhaseIndex < phaseOrder.length - 1 then
          { s with
            currentPhaseIndex := s.currentPhaseIndex + 1,
            status := phaseOrder.getD (s.currentPhaseIndex + 1) ScanStatus.pending }
        else
          { s with status := ScanStatus.completed, intervalActive := false }
      else s

/-- Run a sequence of scan events from a state. -/
def runScan (s : SimState) (es : List ScanEvent) : SimState :=
  es.foldl scanStep s

/-- Severity levels of the mock vulnerabilities generated by
generateMockResults (scanController.js lines 241-294). -/
inductive Severity where
  | High
  | Medium
  | Low
deriving DecidableEq

/-- A vulnerability entry of generateMockResults; nondeterministic fields
(id, confidence, timestamps) are abstracted away, the fields the results
summary depends on are kept. -/
structure Vulnerability where
  vulnType : String
  severity : Severity
  url : String
  description : String
deriving DecidableEq

/-- generateMockResults (scanController.js lines 241-294): up to three
vulnerabilities, each included on an independent random draw, here passed
in as the booleans r1, r2, r3 standing for the three
Math.random threshold tests. Severities are fixed per entry: SQL Injection
is High, XSS is Medium, Information Disclosure is Low. -/
def generateMockResults (targetUrl : String) (r1 r2 r3 : Bool) :
    List Vulnerability :=
  (if r1 then
    [⟨"SQL Injection", Severity.High, targetUrl ++ "/search",
      "Potential SQL injection vulnerability detected in search functionality"⟩]
   else []) ++
  (if r2 then
    [⟨"Cross-Site Scripting (XSS)", Severity.Medium, targetUrl ++ "/comment",
      "Cross-site scripting vulnerability found in user input handling"⟩]
   else []) ++
  (if r3 then
    [⟨"Information Disclosure", Severity.Low, targetUrl ++ "/api/status",
      "Server information disclosure in error responses"⟩]
   else [])

/-- The scan fields getScanResults reads. -/
structure Scan where
  id : String
  targetUrl : String
  status : ScanStatus
deriving DecidableEq

/-- The summary object of the getScanResults response
(scanController.js lines 230-235). -/
structure ResultsSummary where
  total : Nat
  high : Nat
  medium : Nat
  low : Nat
deriving DecidableEq

/-- The success payload of getScanResults. -/
structure ScanResultsResponse where
  vulnerabilities : List Vulnerability
  count : Nat
  summary : ResultsSummary
deriving DecidableEq

/-- Count of vulnerabilities of a given severity, as the summary filters of
getScanResults do. -/
def countSeverity (sev : Severity) (vs : List Vulnerability) : Nat :=
  vs.countP (fun v => v.severity == sev)

/-- getScanResults (scanController.js lines 200-238) for a scan found in the
session: any status other than completed is rejected with HTTP 400;
a completed scan gets mock results and a summary counting them by
severity. -/
def getScanResults (scan : Scan) (r1 r2 r3 : Bool) :
    Except Nat ScanResultsResponse :=
  if scan.status ≠ ScanStatus.completed then Except.error 400
  else
    let vs := generateMockResults scan.targetUrl r1 r2 r3
    Except.ok
      { vulnerabilities := vs,
        count := vs.length,
        summary :=
          { total := vs.length,
            high := countSeverity Severity.High vs,
            medium := countSeverity Severity.Medium vs,
            low := countSeverity Severity.Low vs } }

/-- A completed scan, to instantiate the results theorems. -/
def completedScan : Scan :=
  ⟨"scan_1", "http://example.com", ScanStatus.completed⟩

/-! ## Helper lemmas -/

/-- Every result label is exactly one of the four, so the per-label counts
partition the result list. -/
theorem countLabel_partition (rs : List ClassificationResult) :
    countLabel Classification.HIT rs + countLabel Classification.MISS rs +
      countLabel Classification.LIKELY rs + countLabel Classification.ERROR rs =
      rs.length := by
  induction rs with
  | nil => rfl
  | cons a t ih =>
      unfold countLabel at *
      simp only [List.countP_cons, List.length_cons]
      cases hc : a.classification <;> simp [hc] <;> omega

/-- The fusion decision never produces the ERROR label. -/
theorem fuseLabel_ne_error (cfg : FusionConfig) (conf h : ℚ) :
    fuseLabel cfg conf h ≠ Classification.ERROR := by
  unfold fuseLabel
  split_ifs <;> simp

/-- Validation fails only with the fixed malformed-record message. -/
theorem validate_error_msg (raw : RawRecord) (e : String)
    (h : validate raw = Except.error e) : e = malformedMsg := by
  unfold validate at h
  rcases raw with ⟨u, m, sc, hs, b, rp⟩
  cases u <;> cases m <;> cases sc <;> cases b <;> simp_all

/-- With the default thresholds, a strongly abnormal heuristic score forces
the LIKELY label whatever the classifier probability: HIT needs a
non-negative heuristic, and a near-MISS confidence is nudged up into the
LIKELY band. -/
theorem fuse_strong_abnormal_likely (p hs : ℚ) (hneg : hs ≤ -(1/2)) :
    fuseLabel defaultFusionConfig (finalConfidence defaultFusionConfig p hs) hs =
      Classification.LIKELY := by
  have hhs : ¬ (0 ≤ hs) := by linarith
  have hns : ¬ ((1:ℚ)/2 ≤ hs) := by linarith
  have hc1 : ¬ (defaultFusionConfig.high ≤ p ∧ p < defaultFusionConfig.high + 1/10 ∧
      1/2 ≤ hs) := by
    rintro ⟨_, _, hbad⟩
    exact hns hbad
  by_cases hp : p ≤ (7:ℚ)/20
  · have hconf : finalConfidence defaultFusionConfig p hs =
        (defaultFusionConfig.low + defaultFusionConfig.high) / 2 := by
      unfold finalConfidence
      rw [if_neg hc1, if_pos ⟨hp, hneg⟩]
    rw [hconf]
    unfold fuseLabel
    rw [if_neg (fun hcon => hhs hcon.2), if_neg (by norm_num [defaultFusionConfig])]
  · have hc2 : ¬ (p ≤ defaultFusionConfig.low ∧ hs ≤ -(1/2)) := fun hcon => hp hcon.1
    have hconf : finalConfidence defaultFusionConfig p hs = p := by
      unfold finalConfidence
      rw [if_neg hc1, if_neg hc2]
    rw [hconf]
    unfold fuseLabel
    rw [if_neg (fun hcon => hhs hcon.2),
        if_neg (show ¬ (p ≤ defaultFusionConfig.low) from hp)]

/-! ## Claim theorems -/

/-- Claim C1: for every ResponseRecord, classify returns a result whose
classification is one of HIT, MISS, LIKELY, ERROR and whose confidence lies
in [0,1] (given calibrated classifier probabilities and sane thresholds),
and two calls on identical records against the same snapshot give identical
results. -/
theorem classify_output_valid (cfg : FusionConfig) (snap : Snapshot)
    (r : ResponseRecord)
    (hl0 : 0 ≤ cfg.low) (hlh : cfg.low ≤ cfg.high) (hh1 : cfg.high ≤ 1)
    (hp0 : 0 ≤ snap.predict_proba r) (hp1 : snap.predict_proba r ≤ 1) :
    ((classify cfg snap r).classification = Classification.HIT ∨
     (classify cfg snap r).classification = Classification.MISS ∨
     (classify cfg snap r).classification = Classification.LIKELY ∨
     (classify cfg snap r).classification = Classification.ERROR) ∧
    (0 ≤ (classify cfg snap r).confidence ∧
     (classify cfg snap r).confidence ≤ 1) ∧
    (∀ r2 : ResponseRecord, r2 = r → classify cfg snap r2 = classify cfg snap r) := by
  refine ⟨?_, ⟨?_, ?_⟩, fun r2 hEq => by rw [hEq]⟩
  · simp only [classify]
    unfold fuseLabel
    split_ifs <;> simp
  · simp only [classify]
    unfold finalConfidence
    split_ifs <;> linarith
  · simp only [classify]
    unfold finalConfidence
    split_ifs <;> linarith

/-- Witness for C1 at the default thresholds, the demo snapshot and the
Scenario A record. -/
theorem classify_output_valid_witness :
    (0 ≤ defaultFusionConfig.low ∧ defaultFusionConfig.low ≤ defaultFusionConfig.high ∧
     defaultFusionConfig.high ≤ 1 ∧
     0 ≤ demoSnapshot.predict_proba sqlInjectionRecord ∧
     demoSnapshot.predict_proba sqlInjectionRecord ≤ 1) ∧
    (0 ≤ (classify defaultFusionConfig demoSnapshot sqlInjectionRecord).confidence ∧
     (classify defaultFusionConfig demoSnapshot sqlInjectionRecord).confidence ≤ 1) :=
  ⟨⟨by norm_num [defaultFusionConfig], by norm_num [defaultFusionConfig],
    by norm_num [defaultFusionConfig], by norm_num [demoSnapshot],
    by norm_num [demoSnapshot]⟩,
   (classify_output_valid defaultFusionConfig demoSnapshot sqlInjectionRecord
      (by norm_num [defaultFusionConfig]) (by norm_num [defaultFusionConfig])
      (by norm_num [defaultFusionConfig]) (by norm_num [demoSnapshot])
      (by norm_num [demoSnapshot])).2.1⟩

/-- Claim C2: a batch of N records yields exactly N results, the i-th result
classifying the i-th input record, and the per-label summary counts sum
to N. -/
theorem classify_batch_shape (cfg : FusionConfig) (snap : Snapshot)
    (raws : List RawRecord) :
    ((classify_batch cfg snap raws).1.length = raws.length) ∧
    ((classify_batch cfg snap raws).2.total = raws.length) ∧
    ((classify_batch cfg snap raws).2.HIT + (classify_batch cfg snap raws).2.MISS +
       (classify_batch cfg snap raws).2.LIKELY +
       (classify_batch cfg snap raws).2.ERROR = raws.length) ∧
    (∀ i : Nat, (classify_batch cfg snap raws).1.get? i =
       (raws.get? i).map (classifyOne cfg snap)) := by
  refine ⟨by simp [classify_batch], by simp [classify_batch], ?_, ?_⟩
  · show countLabel Classification.HIT (raws.map (classifyOne cfg snap)) +
        countLabel Classification.MISS (raws.map (classifyOne cfg snap)) +
        countLabel Classification.LIKELY (raws.map (classifyOne cfg snap)) +
        countLabel Classification.ERROR (raws.map (classifyOne cfg snap)) =
        raws.length
    rw [countLabel_partition]
    simp
  · intro i
    show (raws.map (classifyOne cfg snap)).get? i = _
    exact List.get?_map (classifyOne cfg snap) raws i

/-- Witness for C2 on the Scenario C batch of three records. -/
theorem classify_batch_shape_witness :
    (classify_batch defaultFusionConfig demoSnapshot demoBatch).1.length = 3 ∧
    (classify_batch defaultFusionConfig demoSnapshot demoBatch).2.total = 3 :=
  ⟨((classify_batch_shape defaultFusionConfig demoSnapshot demoBatch).1).trans rfl,
   ((classify_batch_shape defaultFusionConfig demoSnapshot demoBatch).2.1).trans rfl⟩

/-- Claim C4: the heuristic normality score always lies in [-1,1], and a
record with at least one db_error match and no normal match scores
strictly below zero. -/
theorem score_bounds_and_db_error_sign (hits : List PatternHit) :
    (-1 ≤ normalityScore hits ∧ normalityScore hits ≤ 1) ∧
    (0 < dbErrorCount hits → normalCount hits = 0 → normalityScore hits < 0) := by
  by_cases hz : abnormalCount hits + normalCount hits = 0
  · have h0 : normalityScore hits = 0 := by
      unfold normalityScore
      rw [if_pos hz]
    refine ⟨by rw [h0]; norm_num, fun hdb hn => ?_⟩
    exfalso
    unfold abnormalCount at hz
    omega
  · have hval : normalityScore hits =
        ((normalCount hits : ℚ) - (abnormalCount hits : ℚ)) /
          ((normalCount hits : ℚ) + (abnormalCount hits : ℚ)) := by
      unfold normalityScore
      rw [if_neg hz]
    have hpos : (0:ℚ) < (normalCount hits : ℚ) + (abnormalCount hits : ℚ) := by
      have : 0 < abnormalCount hits + normalCount hits := Nat.pos_of_ne_zero hz
      have := Nat.cast_lt (α := ℚ) |>.mpr this
      push_cast at this ⊢
      linarith
    have hn0 : (0:ℚ) ≤ (normalCount hits : ℚ) := Nat.cast_nonneg _
    have ha0 : (0:ℚ) ≤ (abnormalCount hits : ℚ) := Nat.cast_nonneg _
    refine ⟨⟨?_, ?_⟩, fun hdb hn => ?_⟩
    · rw [hval, le_div_iff hpos]
      linarith
    · rw [hval, div_le_one hpos]
      linarith
    · rw [hval]
      apply div_neg_of_neg_of_pos _ hpos
      have hapos : 0 < abnormalCount hits := by
        unfold abnormalCount
        omega
      have : (0:ℚ) < (abnormalCount hits : ℚ) := by exact_mod_cast hapos
      rw [hn]
      push_cast
      linarith

/-- Witness for C4 on a single matched db_error hit. -/
theorem score_bounds_and_db_error_sign_witness :
    0 < dbErrorCount demoHits ∧ normalCount demoHits = 0 ∧
    normalityScore demoHits < 0 :=
  ⟨by decide, by decide,
   (score_bounds_and_db_error_sign demoHits).2 (by decide) (by decide)⟩

/-- Claim C5: the fusion decision is by thresholds on the final confidence:
at least the high threshold with a non-negative heuristic gives HIT, at
most the low threshold gives MISS, every other case gives LIKELY; the
default thresholds are 0.75 and 0.35. -/
theorem fuse_threshold_labels (cfg : FusionConfig) (p h : ℚ)
    (hlh : cfg.low < cfg.high) :
    (cfg.high ≤ finalConfidence cfg p h → 0 ≤ h →
       fuseLabel cfg (finalConfidence cfg p h) h = Classification.HIT) ∧
    (finalConfidence cfg p h ≤ cfg.low →
       fuseLabel cfg (finalConfidence cfg p h) h = Classification.MISS) ∧
    (¬ (cfg.high ≤ finalConfidence cfg p h ∧ 0 ≤ h) →
     ¬ (finalConfidence cfg p h ≤ cfg.low) →
       fuseLabel cfg (finalConfidence cfg p h) h = Classification.LIKELY) ∧
    defaultFusionConfig.high = 3/4 ∧ defaultFusionConfig.low = 7/20 := by
  refine ⟨?_, ?_, ?_, rfl, rfl⟩
  · intro h1 h2
    unfold fuseLabel
    rw [if_pos ⟨h1, h2⟩]
  · intro h1
    unfold fuseLabel
    rw [if_neg (fun hcon => by linarith [hcon.1]), if_pos h1]
  · intro h1 h2
    unfold fuseLabel
    rw [if_neg h1, if_neg h2]

/-- Witness for C5 at the default thresholds with probability 0.9 and
heuristic 0. -/
theorem fuse_threshold_labels_witness :
    defaultFusionConfig.low < defaultFusionConfig.high ∧
    fuseLabel defaultFusionConfig
      (finalConfidence defaultFusionConfig (9/10) 0) 0 = Classification.HIT :=
  ⟨by norm_num [defaultFusionConfig],
   (fuse_threshold_labels defaultFusionConfig (9/10) 0
      (by norm_num [defaultFusionConfig])).1
     (by unfold finalConfidence; norm_num [defaultFusionConfig]) (by norm_num)⟩

/-- Claim C3: a malformed record inside a batch yields a per-record ERROR
result with a populated explanation, does not abort the batch (every
well-formed record still gets a non-ERROR result and the summary total is
the batch size), while the same malformed record fails the whole request
in single mode. -/
theorem classify_batch_isolates_malformed (cfg : FusionConfig) (snap : Snapshot)
    (raws : List RawRecord) (i : Nat) (e : String) (hi : i < raws.length)
    (hbad : validate (raws.get ⟨i, hi⟩) = Except.error e) :
    (classifyOne cfg snap (raws.get ⟨i, hi⟩)).classification =
      Classification.ERROR ∧
    (classifyOne cfg snap (raws.get ⟨i, hi⟩)).explanation.note ≠ "" ∧
    (classify_batch cfg snap raws).1.get? i =
      some (classifyOne cfg snap (raws.get ⟨i, hi⟩)) ∧
    (classify_batch cfg snap raws).2.total = raws.length ∧
    (∀ j : Nat, ∀ hj : j < raws.length, ∀ r : ResponseRecord,
       validate (raws.get ⟨j, hj⟩) = Except.ok r →
       (classify_batch cfg snap raws).1.get? j = some (classify cfg snap r) ∧
       (classify cfg snap r).classification ≠ Classification.ERROR) ∧
    classifySingle cfg snap (raws.get ⟨i, hi⟩) = Except.error e := by
  have hmsg : e = malformedMsg := validate_error_msg _ _ hbad
  refine ⟨?_, ?_, ?_, by simp [classify_batch], ?_, ?_⟩
  · unfold classifyOne
    rw [hbad]
  · unfold classifyOne
    rw [hbad]
    simp [hmsg, malformedMsg]
  · show (raws.map (classifyOne cfg snap)).get? i = _
    rw [List.get?_map, List.get?_eq_get hi]
    rfl
  · intro j hj r hok
    constructor
    · have hone : classifyOne cfg snap (raws.get ⟨j, hj⟩) = classify cfg snap r := by
        unfold classifyOne
        rw [hok]
      show (raws.map (classifyOne cfg snap)).get? j = _
      rw [List.get?_map, List.get?_eq_get hj, Option.map_some', hone]
    · simp only [classify]
      exact fuseLabel_ne_error cfg _ _
  · unfold classifySingle
    rw [hbad]
    rfl

/-- Witness for C3 on the Scenario C batch whose middle record has no
body. -/
theorem classify_batch_isolates_malformed_witness :
    (1 < demoBatch.length ∧ validate badRaw = Except.error malformedMsg) ∧
    ((classifyOne defaultFusionConfig demoSnapshot badRaw).classification =
       Classification.ERROR ∧
     (classify_batch defaultFusionConfig demoSnapshot demoBatch).2.total = 3) :=
  ⟨⟨by decide, rfl⟩,
   ⟨(classify_batch_isolates_malformed defaultFusionConfig demoSnapshot demoBatch
       1 malformedMsg (by decide) rfl).1,
    ((classify_batch_isolates_malformed defaultFusionConfig demoSnapshot demoBatch
       1 malformedMsg (by decide) rfl).2.2.2.1).trans rfl⟩⟩

/-- Claim C6: a failed retraining leaves the previously active snapshot
active and records the failure, the /retrain caller gets only the
immediate acknowledgement with the state unchanged, and only a successful
training installs the new snapshot. -/
theorem retrain_failure_keeps_snapshot (st : MLState)
    (corpus : List LabeledExample) (e : String)
    (hfail : train corpus = Except.error e) :
    (applyRetrain st corpus).active = st.active ∧
    (applyRetrain st corpus).lastFailure = some e ∧
    retrainAck st = ("Model retraining started in background", st) ∧
    (∀ c2 : List LabeledExample, ∀ s2 : Snapshot,
       train c2 = Except.ok s2 → (applyRetrain st c2).active = some s2) := by
  refine ⟨?_, ?_, rfl, ?_⟩
  · unfold applyRetrain
    rw [hfail]
  · unfold applyRetrain
    rw [hfail]
  · intro c2 s2 h2
    unfold applyRetrain
    rw [h2]

/-- Witness for C6: retraining on the empty corpus fails and leaves the
unloaded state unloaded. -/
theorem retrain_failure_keeps_snapshot_witness :
    train ([] : List LabeledExample) =
      Except.error "TrainingFailure: empty corpus" ∧
    (applyRetrain emptyMLState []).active = none ∧
    (applyRetrain emptyMLState []).lastFailure =
      some "TrainingFailure: empty corpus" :=
  ⟨rfl,
   ((retrain_failure_keeps_snapshot emptyMLState [] _ rfl).1).trans rfl,
   (retrain_failure_keeps_snapshot emptyMLState [] _ rfl).2.1⟩

/-- Claim C7: GET /health carries a status field and a model_loaded field,
and model_loaded is false exactly when no snapshot exists, the state in
which classify and model_info fail with ModelNotLoaded; with a snapshot
loaded both calls succeed. -/
theorem health_reports_model_loaded (st : MLState) :
    ((health st).model_loaded = false ↔ st.active = none) ∧
    ((health st).status = if st.active.isSome then "healthy" else "unhealthy") ∧
    (st.active = none →
       (∀ raw : RawRecord, serviceClassify st raw =
          Except.error "ModelNotLoaded") ∧
       model_info st = Except.error "ModelNotLoaded") ∧
    (∀ snap : Snapshot, st.active = some snap →
       (health st).model_loaded = true ∧
       serviceClassify st demoRaw =
         Except.ok (classify defaultFusionConfig snap demoRecord) ∧
       model_info st =
         Except.ok ⟨"RandomForestClassifier", snap.vectorizer_features,
                    snap.model_features⟩) := by
  refine ⟨?_, rfl, ?_, ?_⟩
  · cases hst : st.active <;> simp [health, hst]
  · intro hnone
    refine ⟨fun raw => ?_, ?_⟩
    · unfold serviceClassify
      rw [hnone]
    · unfold model_info
      rw [hnone]
  · intro snap hsnap
    refine ⟨by simp [health, hsnap], ?_, ?_⟩
    · unfold serviceClassify
      rw [hsnap]
      unfold classifySingle
      have hv : validate demoRaw = Except.ok demoRecord := rfl
      rw [hv]
      rfl
    · unfold model_info
      rw [hsnap]

/-- Witness for C7 in the unloaded state. -/
theorem health_reports_model_loaded_witness :
    ((health emptyMLState).model_loaded = false ∧
     (health emptyMLState).status = "unhealthy") ∧
    model_info emptyMLState = Except.error "ModelNotLoaded" :=
  ⟨⟨(health_reports_model_loaded emptyMLState).1.mpr rfl,
    ((health_reports_model_loaded emptyMLState).2.1).trans rfl⟩,
   ((health_reports_model_loaded emptyMLState).2.2.1 rfl).2⟩

/-- Claim C8: on the Scenario A record (MySQL SQL-syntax error body, status
500, injection payload) classify returns HIT or LIKELY, never MISS, and
the explanation cites a SQL-syntax pattern match. -/
theorem sql_syntax_record_not_miss (snap : Snapshot) :
    ((classify defaultFusionConfig snap sqlInjectionRecord).classification =
        Classification.HIT ∨
     (classify defaultFusionConfig snap sqlInjectionRecord).classification =
        Classification.LIKELY) ∧
    (classify defaultFusionConfig snap sqlInjectionRecord).classification ≠
      Classification.MISS ∧
    PatternCategory.sql_syntax ∈
      (classify defaultFusionConfig snap sqlInjectionRecord).explanation.firedCategories := by
  have ha : abnormalCount (mkHits sqlInjectionRecord) = 2 := by decide
  have hn : normalCount (mkHits sqlInjectionRecord) = 0 := by decide
  have hsql : 0 < sqlSyntaxCount (mkHits sqlInjectionRecord) := by decide
  have hdb : 0 < dbErrorCount (mkHits sqlInjectionRecord) := by decide
  have hscore : normalityScore (mkHits sqlInjectionRecord) = -1 := by
    unfold normalityScore
    rw [ha, hn]
    norm_num
  have hlabel : (classify defaultFusionConfig snap sqlInjectionRecord).classification =
      Classification.LIKELY := by
    show fuseLabel defaultFusionConfig
        (finalConfidence defaultFusionConfig
          (snap.predict_proba sqlInjectionRecord)
          (normalityScore (mkHits sqlInjectionRecord)))
        (normalityScore (mkHits sqlInjectionRecord)) = Classification.LIKELY
    rw [hscore]
    exact fuse_strong_abnormal_likely _ _ (by norm_num)
  refine ⟨Or.inr hlabel, by rw [hlabel]; simp, ?_⟩
  show PatternCategory.sql_syntax ∈
    (mkExplanation (mkHits sqlInjectionRecord)
      (snap.predict_proba sqlInjectionRecord)).firedCategories
  unfold mkExplanation
  rw [if_pos hdb, if_pos hsql]
  simp

/-- Witness for C8 at the demo snapshot. -/
theorem sql_syntax_record_not_miss_witness :
    (classify defaultFusionConfig demoSnapshot sqlInjectionRecord).classification ≠
      Classification.MISS :=
  (sql_syntax_record_not_miss demoSnapshot).2.1

/-- Claim C9 (code bug in scanController.js): the background progress
simulation never observes cancellation, so after a successful cancelScan
the very next interval tick overwrites the cancelled status with the next
phase, and further ticks drive the scan to completed. The run below starts
a scan, ticks once (crawling), cancels it, and keeps ticking: the status
right after the next tick is analyzing, not cancelled, and after four more
ticks it is completed. -/
theorem cancelled_scan_later_completed :
    (runScan startedScan [ScanEvent.tick, ScanEvent.cancel]).status =
      ScanStatus.cancelled ∧
    (runScan startedScan [ScanEvent.tick, ScanEvent.cancel, ScanEvent.tick]).status =
      ScanStatus.analyzing ∧
    (runScan startedScan
        [ScanEvent.tick, ScanEvent.cancel, ScanEvent.tick, ScanEvent.tick,
         ScanEvent.tick, ScanEvent.tick]).status = ScanStatus.completed := by
  exact ⟨rfl, rfl, rfl⟩

/-- Claim C10: getScanResults on a completed scan returns a summary whose
total equals the number of returned vulnerabilities and equals
high + medium + low, for every outcome of the three random draws; any
other status is rejected with a 400 error and no vulnerabilities. -/
theorem scan_results_summary_consistent (scan : Scan) (r1 r2 r3 : Bool) :
    (scan.status = ScanStatus.completed →
       ∃ resp : ScanResultsResponse,
         getScanResults scan r1 r2 r3 = Except.ok resp ∧
         resp.summary.total = resp.vulnerabilities.length ∧
         resp.summary.total =
           resp.summary.high + resp.summary.medium + resp.summary.low ∧
         resp.count = resp.vulnerabilities.length) ∧
    (scan.status ≠ ScanStatus.completed →
       getScanResults scan r1 r2 r3 = Except.error 400) := by
  constructor
  · intro hc
    unfold getScanResults
    rw [if_neg (by simp [hc])]
    refine ⟨_, rfl, rfl, ?_, rfl⟩
    show (generateMockResults scan.targetUrl r1 r2 r3).length =
      countSeverity Severity.High (generateMockResults scan.targetUrl r1 r2 r3) +
      countSeverity Severity.Medium (generateMockResults scan.targetUrl r1 r2 r3) +
      countSeverity Severity.Low (generateMockResults scan.targetUrl r1 r2 r3)
    cases r1 <;> cases r2 <;> cases r3 <;> rfl
  · intro hnc
    unfold getScanResults
    rw [if_pos hnc]

/-- Witness for C10 on a completed scan with all three draws positive. -/
theorem scan_results_summary_consistent_witness :
    completedScan.status = ScanStatus.completed ∧
    ∃ resp : ScanResultsResponse,
      getScanResults completedScan true true true = Except.ok resp ∧
      resp.summary.total = resp.vulnerabilities.length ∧
      resp.summary.total =
        resp.summary.high + resp.summary.medium + resp.summary.low ∧
      resp.count = resp.vulnerabilities.length :=
  ⟨rfl, (scan_results_summary_consistent completedScan true true true).1 rfl⟩
